import Mathlib

/-!
Shallow embedding of the clearing-house core of partiallysorted/drift-protocol-v2:
oracle normalization (state/oracle.rs), the funding-rate lifecycle
(controller/funding.rs) and the curve price helper (math/curve.rs).

Machine integers are embedded as Nat (unsigned) and Int (signed) with explicit
range checks at every checked operation, mirroring the Rust checked_* calls.
Rust division on signed integers truncates toward zero, embedded as Int.tdiv;
rem_euclid is embedded as Int.emod (the percent operator on Int).
Fallible Rust paths return Except ErrorCode; a Rust runtime panic (unwrap on
None, or a plain division by zero) is embedded as the distinguished
ErrorCode.panicked / Option.none outcome, since both abort the enclosing
transaction.
-/

/-- Minimum value of a Rust i64. -/
def I64MIN : Int := -(2 ^ 63)

/-- Maximum value of a Rust i64. -/
def I64MAX : Int := 2 ^ 63 - 1

/-- Minimum value of a Rust i128. -/
def I128MIN : Int := -(2 ^ 127)

/-- Maximum value of a Rust i128. -/
def I128MAX : Int := 2 ^ 127 - 1

/-- Maximum value of a Rust u128. -/
def U128MAX : Nat := 2 ^ 128 - 1

/-- Maximum value of a Rust u256 (the wide intermediate type of math/bn.rs). -/
def U256MAX : Nat := 2 ^ 256 - 1

/-- Rust i64::checked_add. -/
def checkedAddI64 (a b : Int) : Option Int :=
  if I64MIN ≤ a + b ∧ a + b ≤ I64MAX then some (a + b) else none

/-- Rust i64::checked_sub. -/
def checkedSubI64 (a b : Int) : Option Int :=
  if I64MIN ≤ a - b ∧ a - b ≤ I64MAX then some (a - b) else none

/-- Rust i64::checked_mul. -/
def checkedMulI64 (a b : Int) : Option Int :=
  if I64MIN ≤ a * b ∧ a * b ≤ I64MAX then some (a * b) else none

/-- Rust i64::checked_div: fails on division by zero or on MIN / -1. -/
def checkedDivI64 (a b : Int) : Option Int :=
  if b = 0 ∨ (a = I64MIN ∧ b = -1) then none else some (Int.tdiv a b)

/-- Rust i128::checked_add. -/
def checkedAddI128 (a b : Int) : Option Int :=
  if I128MIN ≤ a + b ∧ a + b ≤ I128MAX then some (a + b) else none

/-- Rust i128::checked_sub. -/
def checkedSubI128 (a b : Int) : Option Int :=
  if I128MIN ≤ a - b ∧ a - b ≤ I128MAX then some (a - b) else none

/-- Rust i128::checked_mul. -/
def checkedMulI128 (a b : Int) : Option Int :=
  if I128MIN ≤ a * b ∧ a * b ≤ I128MAX then some (a * b) else none

/-- Rust i128::checked_div: fails on division by zero or on MIN / -1. -/
def checkedDivI128 (a b : Int) : Option Int :=
  if b = 0 ∨ (a = I128MIN ∧ b = -1) then none else some (Int.tdiv a b)

/-- Rust u128::checked_mul. -/
def checkedMulU128 (a b : Nat) : Option Nat :=
  if a * b ≤ U128MAX then some (a * b) else none

/-- Rust u128::checked_div: fails only on division by zero. -/
def checkedDivU128 (a b : Nat) : Option Nat :=
  if b = 0 then none else some (a / b)

/-- Modelled from the spec: math/casting.rs is not under src/; per the spec,
casting between integer widths must fail if the value is out of the target
range rather than silently truncate. Cast of an unsigned value to i128. -/
def castU128toI128 (n : Nat) : Option Int :=
  if (n : Int) ≤ I128MAX then some n else none

/-- Modelled from the spec: casting.rs is not under src/. Cast of an unsigned
value (u64 slot) to i64, failing when out of range. -/
def castU64toI64 (n : Nat) : Option Int :=
  if (n : Int) ≤ I64MAX then some n else none

/-- Rust as-cast of a u128 value to i128: silent two's-complement wrap
(this is the behavior of the as-casts on lines 151 and 156 of oracle.rs). -/
def wrapU128toI128 (n : Nat) : Int :=
  let m : Nat := n % 2 ^ 128
  if m < 2 ^ 127 then (m : Int) else (m : Int) - 2 ^ 128

/-- Rust release-mode u128 exponentiation of 10 (10_u128.pow), which wraps on
overflow in the deployed build. -/
def pow10u128 (e : Nat) : Nat := 10 ^ e % 2 ^ 128

/-- Error outcomes of a clearing-house call. The first four embed the
ErrorCode variants reached from these files (error.rs itself is not under
src/; the spec names UnableToLoadOracle and the arithmetic/cast failures).
The panicked variant embeds a Rust runtime panic, which likewise aborts the
enclosing transaction. -/
inductive ErrorCode where
  | UnableToLoadOracle : ErrorCode
  | MathError : ErrorCode
  | CastingFailure : ErrorCode
  | MarketNotFound : ErrorCode
  | panicked : ErrorCode
deriving DecidableEq

/-- ok_or_else(math_error!()) on an Option result. -/
def liftMath {α : Type} (o : Option α) : Except ErrorCode α :=
  match o with
  | some a => Except.ok a
  | none => Except.error ErrorCode.MathError

/-- Failure propagation for a cast result. -/
def liftCast {α : Type} (o : Option α) : Except ErrorCode α :=
  match o with
  | some a => Except.ok a
  | none => Except.error ErrorCode.CastingFailure

instance {e a : Type} [DecidableEq e] [DecidableEq a] : DecidableEq (Except e a) :=
  fun x y =>
    match x, y with
    | Except.ok u, Except.ok v =>
      if h : u = v then isTrue (by rw [h]) else isFalse (by simp [h])
    | Except.error u, Except.error v =>
      if h : u = v then isTrue (by rw [h]) else isFalse (by simp [h])
    | Except.ok _, Except.error _ => isFalse (by simp)
    | Except.error _, Except.ok _ => isFalse (by simp)

/-- Modelled from the spec: math/constants.rs is not under src/. The engine's
global fixed-point mantissa (the spec's single global mantissa precision). -/
def MARK_PRICE_PRECISION : Nat := 10 ^ 10

/-- Signed copy of MARK_PRICE_PRECISION. -/
def MARK_PRICE_PRECISION_I128 : Int := 10 ^ 10

/-- Modelled from the spec: constants.rs is not under src/. Mantissa used by
math/curve.rs; the same global fixed-point scale. -/
def MARK_PRICE_MANTISSA : Nat := 10 ^ 10

/-- Modelled from the spec: constants.rs is not under src/. Precision of the
peg multiplier used by math/curve.rs. -/
def PEG_PRECISION : Nat := 10 ^ 3

/-- Modelled from the spec: constants.rs is not under src/. One hour in
seconds, the reference funding period length. -/
def ONE_HOUR : Int := 3600

/-- Modelled from the spec: constants.rs is not under src/. The fixed
fractional precision of funding-rate accumulators. -/
def FUNDING_PAYMENT_PRECISION : Nat := 10 ^ 4

/-- The value of cast(FUNDING_PAYMENT_PRECISION) to i128, a cast of a small
constant that always succeeds. -/
def FUNDING_PAYMENT_PRECISION_I128 : Int := 10 ^ 4

/-- Modelled from the spec: constants.rs is not under src/. The fixed divisor
scaling a settlement amount from internal precision down to quote precision
(step 3 of the spec's settlement algorithm). -/
def AMM_TO_QUOTE_PRECISION_RATIO_I128 : Int := 10 ^ 7

/-- Normalized oracle observation (state/oracle.rs). -/
structure OraclePriceData where
  price : Int
  confidence : Nat
  delay : Int
  has_sufficient_number_of_data_points : Bool
deriving DecidableEq

/-- Logical fields of a parsed pyth_client::Price account: the signed
aggregate price (i64), aggregate confidence (u64), power-of-ten exponent
(i32) and the slot of the report (u64). -/
structure PythPriceData where
  agg_price : Int
  agg_conf : Nat
  expo : Int
  valid_slot : Nat
deriving DecidableEq

/-- A switchboard_v2 SwitchboardDecimal: mantissa (i128) and scale (u32). -/
structure SwitchboardDecimal where
  mantissa : Int
  scale : Nat
deriving DecidableEq

/-- Logical fields of a switchboard_v2 AggregatorAccountData used here:
latest_confirmed_round.result, .std_deviation, .round_open_slot,
.num_success, and min_oracle_results. -/
structure AggregatorAccountData where
  result : SwitchboardDecimal
  std_deviation : SwitchboardDecimal
  round_open_slot : Nat
  num_success : Nat
  min_oracle_results : Nat
deriving DecidableEq

/-- An oracle account: what a successful borrow-and-parse of the raw account
bytes yields under each layout, none when the account cannot be read in that
layout (the UnableToLoadOracle path). -/
structure AccountInfo where
  pyth_data : Option PythPriceData
  switchboard_data : Option AggregatorAccountData
deriving DecidableEq

/-- Oracle source selector (state/oracle.rs). -/
inductive OracleSource where
  | Pyth : OracleSource
  | Switchboard : OracleSource
  | QuoteAsset : OracleSource
deriving DecidableEq

/-- convert_switchboard_decimal of state/oracle.rs: scale a
(mantissa, scale) decimal to MARK_PRICE_PRECISION. The divisor and the
multiplier are plain u128 divisions wrap-cast to i128 as in the source; the
else-branch plain division panics when the switchboard precision wraps to
zero. -/
def convert_switchboard_decimal (sd : SwitchboardDecimal) : Except ErrorCode Int :=
  let switchboard_precision := pow10u128 sd.scale
  if switchboard_precision > MARK_PRICE_PRECISION then
    liftMath (checkedDivI128 sd.mantissa
      (wrapU128toI128 (switchboard_precision / MARK_PRICE_PRECISION)))
  else
    if switchboard_precision = 0 then Except.error ErrorCode.panicked
    else
      liftMath (checkedMulI128 sd.mantissa
        (wrapU128toI128 (MARK_PRICE_PRECISION / switchboard_precision)))

/-- get_pyth_price of state/oracle.rs. -/
def get_pyth_price (price_oracle : AccountInfo) (clock_slot : Nat) :
    Except ErrorCode OraclePriceData :=
  match price_oracle.pyth_data with
  | none => Except.error ErrorCode.UnableToLoadOracle
  | some price_data =>
    let oracle_price : Int := price_data.agg_price
    let oracle_conf : Nat := price_data.agg_conf
    let oracle_precision := pow10u128 price_data.expo.natAbs
    match
      (if oracle_precision > MARK_PRICE_PRECISION then
        (liftMath (checkedDivU128 oracle_precision MARK_PRICE_PRECISION)).map
          (fun d => ((1 : Nat), d))
      else
        (liftMath (checkedDivU128 MARK_PRICE_PRECISION oracle_precision)).map
          (fun m => (m, (1 : Nat)))) with
    | Except.error e => Except.error e
    | Except.ok (oracle_scale_mult, oracle_scale_div) =>
      match liftCast (castU128toI128 oracle_scale_mult) with
      | Except.error e => Except.error e
      | Except.ok mult =>
        match liftMath (checkedMulI128 oracle_price mult) with
        | Except.error e => Except.error e
        | Except.ok scaled0 =>
          match liftCast (castU128toI128 oracle_scale_div) with
          | Except.error e => Except.error e
          | Except.ok divi =>
            match liftMath (checkedDivI128 scaled0 divi) with
            | Except.error e => Except.error e
            | Except.ok oracle_price_scaled =>
              match liftMath (checkedMulU128 oracle_conf oracle_scale_mult) with
              | Except.error e => Except.error e
              | Except.ok conf0 =>
                match liftMath (checkedDivU128 conf0 oracle_scale_div) with
                | Except.error e => Except.error e
                | Except.ok oracle_conf_scaled =>
                  match liftCast (castU64toI64 clock_slot) with
                  | Except.error e => Except.error e
                  | Except.ok slot_i =>
                    match liftCast (castU64toI64 price_data.valid_slot) with
                    | Except.error e => Except.error e
                    | Except.ok valid_i =>
                      match liftMath (checkedSubI64 slot_i valid_i) with
                      | Except.error e => Except.error e
                      | Except.ok oracle_delay =>
                        Except.ok
                          { price := oracle_price_scaled
                            confidence := oracle_conf_scaled
                            delay := oracle_delay
                            has_sufficient_number_of_data_points := true }

/-- get_switchboard_price of state/oracle.rs. -/
def get_switchboard_price (price_oracle : AccountInfo) (clock_slot : Nat) :
    Except ErrorCode OraclePriceData :=
  match price_oracle.switchboard_data with
  | none => Except.error ErrorCode.UnableToLoadOracle
  | some aggregator_data =>
    match convert_switchboard_decimal aggregator_data.result with
    | Except.error e => Except.error e
    | Except.ok price =>
      match convert_switchboard_decimal aggregator_data.std_deviation with
      | Except.error e => Except.error e
      | Except.ok confidence0 =>
        match
          (if confidence0 < 0 then Except.ok U128MAX
           else
             match liftMath (checkedDivU128 price.natAbs 1000) with
             | Except.error e => Except.error e
             | Except.ok price_10bps =>
               Except.ok (max confidence0.natAbs price_10bps)) with
        | Except.error e => Except.error e
        | Except.ok confidence =>
          match liftCast (castU64toI64 clock_slot) with
          | Except.error e => Except.error e
          | Except.ok slot_i =>
            match liftCast (castU64toI64 aggregator_data.round_open_slot) with
            | Except.error e => Except.error e
            | Except.ok open_i =>
              match liftMath (checkedSubI64 slot_i open_i) with
              | Except.error e => Except.error e
              | Except.ok delay =>
                Except.ok
                  { price := price
                    confidence := confidence
                    delay := delay
                    has_sufficient_number_of_data_points :=
                      aggregator_data.num_success ≥ aggregator_data.min_oracle_results }

/-- get_oracle_price of state/oracle.rs: dispatch on the oracle source. -/
def get_oracle_price (oracle_source : OracleSource) (price_oracle : AccountInfo)
    (clock_slot : Nat) : Except ErrorCode OraclePriceData :=
  match oracle_source with
  | OracleSource.Pyth => get_pyth_price price_oracle clock_slot
  | OracleSource.Switchboard => get_switchboard_price price_oracle clock_slot
  | OracleSource.QuoteAsset =>
      Except.ok
        { price := MARK_PRICE_PRECISION_I128
          confidence := 1
          delay := 0
          has_sufficient_number_of_data_points := true }

/-- The AMM state embedded in a Market (state/market.rs is not under src/;
fields are the ones read and written by controller/funding.rs, plus the two
TWAP fields the spec assigns to the AMM collaborator). -/
structure AMM where
  cumulative_funding_rate_long : Int
  cumulative_funding_rate_short : Int
  last_funding_rate : Int
  last_funding_rate_ts : Int
  funding_period : Int
  last_oracle_price_twap : Int
  last_mark_price_twap : Nat
deriving DecidableEq

/-- A market record: its AMM and the sequential id for funding-rate audit
records. -/
structure Market where
  amm : AMM
  next_funding_rate_record_id : Nat
deriving DecidableEq

/-- A user position (state/user.rs is not under src/; fields are the ones
read and written by settle_funding_payment). -/
structure MarketPosition where
  market_index : Nat
  base_asset_amount : Int
  last_cumulative_funding_rate : Int
  last_funding_rate_ts : Int
  unsettled_pnl : Int
deriving DecidableEq

/-- A user account: authority key and position list. -/
structure User where
  authority : Nat
  positions : List MarketPosition
deriving DecidableEq

/-- The market registry, keyed by market index. -/
def MarketMap : Type := Nat → Option Market

/-- MarketMap.get_ref: look a market up, failing when absent. -/
def MarketMap.get_ref (mm : MarketMap) (market_index : Nat) : Except ErrorCode Market :=
  match mm market_index with
  | some market => Except.ok market
  | none => Except.error ErrorCode.MarketNotFound

/-- The FundingPaymentRecord audit event (state/events.rs is not under src/;
fields as constructed on lines 49-60 of controller/funding.rs). -/
structure FundingPaymentRecord where
  ts : Int
  user_authority : Nat
  user : Nat
  market_index : Nat
  funding_payment : Int
  user_last_cumulative_funding : Int
  user_last_funding_rate_ts : Int
  amm_cumulative_funding_long : Int
  amm_cumulative_funding_short : Int
  base_asset_amount : Int
deriving DecidableEq

/-- The FundingRateRecord audit event (fields as constructed on lines
188-197 of controller/funding.rs). -/
structure FundingRateRecord where
  ts : Int
  record_id : Nat
  market_index : Nat
  funding_rate : Int
  cumulative_funding_rate_long : Int
  cumulative_funding_rate_short : Int
  mark_price_twap : Nat
  oracle_price_twap : Int
deriving DecidableEq

/-- Modelled from the spec: math/funding.rs is not under src/. Per step 3 of
the spec's settlement algorithm, the owed payment is proportional to the
counter delta and to the position size, at the engine's internal settlement
precision (the quote-precision divisor is applied separately by the caller,
line 46 of controller/funding.rs). -/
def calculate_funding_payment (amm_cumulative_funding_rate : Int)
    (market_position : MarketPosition) : Except ErrorCode Int :=
  match checkedSubI128 amm_cumulative_funding_rate
      market_position.last_cumulative_funding_rate with
  | none => Except.error ErrorCode.MathError
  | some funding_rate_delta =>
    match checkedMulI128 funding_rate_delta market_position.base_asset_amount with
    | none => Except.error ErrorCode.MathError
    | some num =>
      liftMath (checkedDivI128 num FUNDING_PAYMENT_PRECISION_I128)

/-- The body of the settlement loop of settle_funding_payment
(lines 29-69 of controller/funding.rs) for one position: the updated
position and the emitted audit record, if any. -/
def settle_position (authority : Nat) (user_key : Nat) (mm : MarketMap)
    (now : Int) (market_position : MarketPosition) :
    Except ErrorCode (MarketPosition × Option FundingPaymentRecord) :=
  if market_position.base_asset_amount = 0 then
    Except.ok (market_position, none)
  else
    match mm.get_ref market_position.market_index with
    | Except.error e => Except.error e
    | Except.ok market =>
      let amm := market.amm
      let amm_cumulative_funding_rate :=
        if market_position.base_asset_amount > 0 then
          amm.cumulative_funding_rate_long
        else
          amm.cumulative_funding_rate_short
      if amm_cumulative_funding_rate ≠ market_position.last_cumulative_funding_rate then
        match calculate_funding_payment amm_cumulative_funding_rate market_position with
        | Except.error e => Except.error e
        | Except.ok payment0 =>
          match liftMath (checkedDivI128 payment0 AMM_TO_QUOTE_PRECISION_RATIO_I128) with
          | Except.error e => Except.error e
          | Except.ok market_funding_payment =>
            let record : FundingPaymentRecord :=
              { ts := now
                user_authority := authority
                user := user_key
                market_index := market_position.market_index
                funding_payment := market_funding_payment
                user_last_cumulative_funding :=
                  market_position.last_cumulative_funding_rate
                user_last_funding_rate_ts := market_position.last_funding_rate_ts
                amm_cumulative_funding_long := amm.cumulative_funding_rate_long
                amm_cumulative_funding_short := amm.cumulative_funding_rate_short
                base_asset_amount := market_position.base_asset_amount }
            match liftMath (checkedAddI128 market_position.unsettled_pnl
                market_funding_payment) with
            | Except.error e => Except.error e
            | Except.ok new_unsettled =>
              Except.ok
                ({ market_position with
                    last_cumulative_funding_rate := amm_cumulative_funding_rate
                    last_funding_rate_ts := amm.last_funding_rate_ts
                    unsettled_pnl := new_unsettled }, some record)
      else
        Except.ok (market_position, none)

/-- The settlement loop over the whole position list, threading emitted
records. -/
def settle_positions (authority : Nat) (user_key : Nat) (mm : MarketMap)
    (now : Int) : List MarketPosition →
    Except ErrorCode (List MarketPosition × List FundingPaymentRecord)
  | [] => Except.ok ([], [])
  | p :: rest =>
    match settle_position authority user_key mm now p with
    | Except.error e => Except.error e
    | Except.ok (p', orec) =>
      match settle_positions authority user_key mm now rest with
      | Except.error e => Except.error e
      | Except.ok (rest', recs) =>
        Except.ok (p' :: rest', orec.toList ++ recs)

/-- settle_funding_payment of controller/funding.rs: walk the user's
positions, settling each against its market, returning the updated user and
the emitted FundingPaymentRecord events. -/
def settle_funding_payment (user : User) (user_key : Nat) (mm : MarketMap)
    (now : Int) : Except ErrorCode (User × List FundingPaymentRecord) :=
  match settle_positions user.authority user_key mm now user.positions with
  | Except.error e => Except.error e
  | Except.ok (positions', recs) =>
    Except.ok ({ user with positions := positions' }, recs)

/-- The next-allowed-update wait of update_funding_rate (lines 96-136 of
controller/funding.rs): align funding updates to period boundaries. -/
def nextUpdateWait (funding_period : Int) (last_funding_rate_ts : Int) :
    Option Int :=
  if funding_period > 1 then
    let last_update_delay := last_funding_rate_ts % funding_period
    if last_update_delay ≠ 0 then
      match checkedDivI64 funding_period 3 with
      | none => none
      | some max_delay_for_next_period =>
        match checkedMulI64 funding_period 2 with
        | none => none
        | some two_funding_periods =>
          match
            (if last_update_delay > max_delay_for_next_period then
              checkedSubI64 two_funding_periods last_update_delay
             else
              checkedSubI64 funding_period last_update_delay) with
          | none => none
          | some w =>
            if w > two_funding_periods then
              checkedSubI64 w funding_period
            else
              some w
    else some funding_period
  else some funding_period

/-- The clamp of the mark-minus-oracle spread (line 162 of
controller/funding.rs). -/
def clamp_price_spread (price_spread max_price_spread : Int) : Int :=
  max (-max_price_spread) (min price_spread max_price_spread)

/-- update_funding_rate of controller/funding.rs. The three collaborators
that are not under src/ are passed in as pure functions, as the spec
describes them: oracleTwapF is update_oracle_price_twap as a function of
(previous oracle twap, now, oracle observation), markTwapF is
update_mark_twap as a function of (previous mark twap, now), and splitF is
calculate_funding_rate_long_short; blockOpRes is the result of the guard
call oracle::block_operation. Returns the updated market and the emitted
FundingRateRecord, if any. -/
def update_funding_rate
    (oracleTwapF : Int → Int → OraclePriceData → Except ErrorCode Int)
    (markTwapF : Nat → Int → Except ErrorCode Nat)
    (splitF : Market → Int → Except ErrorCode (Int × Int))
    (market_index : Nat) (market : Market) (now : Int)
    (blockOpRes : Except ErrorCode (Bool × OraclePriceData))
    (funding_paused : Bool) :
    Except ErrorCode (Market × Option FundingRateRecord) :=
  match liftMath (checkedSubI64 now market.amm.last_funding_rate_ts) with
  | Except.error e => Except.error e
  | Except.ok time_since_last_update =>
    match blockOpRes with
    | Except.error e => Except.error e
    | Except.ok (block_funding_rate_update, oracle_price_data) =>
      match liftMath (nextUpdateWait market.amm.funding_period
          market.amm.last_funding_rate_ts) with
      | Except.error e => Except.error e
      | Except.ok next_update_wait =>
        if funding_paused = false ∧ block_funding_rate_update = false ∧
            time_since_last_update ≥ next_update_wait then
          match oracleTwapF market.amm.last_oracle_price_twap now oracle_price_data with
          | Except.error e => Except.error e
          | Except.ok oracle_price_twap =>
            let amm1 := { market.amm with last_oracle_price_twap := oracle_price_twap }
            match markTwapF amm1.last_mark_price_twap now with
            | Except.error e => Except.error e
            | Except.ok mid_price_twap =>
              let amm2 := { amm1 with last_mark_price_twap := mid_price_twap }
              match liftMath (checkedMulI128 24 ONE_HOUR) with
              | Except.error e => Except.error e
              | Except.ok day_seconds =>
                match liftMath (checkedDivI128 day_seconds
                    (max ONE_HOUR amm2.funding_period)) with
                | Except.error e => Except.error e
                | Except.ok period_adjustment =>
                  match liftCast (castU128toI128 mid_price_twap) with
                  | Except.error e => Except.error e
                  | Except.ok mid_i =>
                    match liftMath (checkedSubI128 mid_i oracle_price_twap) with
                    | Except.error e => Except.error e
                    | Except.ok price_spread =>
                      match liftMath (checkedDivI128 oracle_price_twap 33) with
                      | Except.error e => Except.error e
                      | Except.ok max_price_spread =>
                        let clamped_price_spread :=
                          clamp_price_spread price_spread max_price_spread
                        match liftMath (checkedMulI128 clamped_price_spread
                            FUNDING_PAYMENT_PRECISION_I128) with
                        | Except.error e => Except.error e
                        | Except.ok scaled_spread =>
                          match liftMath (checkedDivI128 scaled_spread
                              period_adjustment) with
                          | Except.error e => Except.error e
                          | Except.ok funding_rate =>
                            match splitF { market with amm := amm2 } funding_rate with
                            | Except.error e => Except.error e
                            | Except.ok (funding_rate_long, funding_rate_short) =>
                              match liftMath (checkedAddI128
                                  amm2.cumulative_funding_rate_long funding_rate_long) with
                              | Except.error e => Except.error e
                              | Except.ok new_long =>
                                match liftMath (checkedAddI128
                                    amm2.cumulative_funding_rate_short
                                    funding_rate_short) with
                                | Except.error e => Except.error e
                                | Except.ok new_short =>
                                  let record_id := market.next_funding_rate_record_id
                                  let amm3 :=
                                    { amm2 with
                                        cumulative_funding_rate_long := new_long
                                        cumulative_funding_rate_short := new_short
                                        last_funding_rate := funding_rate
                                        last_funding_rate_ts := now }
                                  Except.ok
                                    ({ amm := amm3
                                       next_funding_rate_record_id := record_id + 1 },
                                     some
                                       { ts := now
                                         record_id := record_id
                                         market_index := market_index
                                         funding_rate := funding_rate
                                         cumulative_funding_rate_long := new_long
                                         cumulative_funding_rate_short := new_short
                                         mark_price_twap := mid_price_twap
                                         oracle_price_twap := oracle_price_twap })
        else
          Except.ok (market, none)

/-- Rust U256 (math/bn.rs) checked_mul on the 256-bit wide type. -/
def checkedMulU256 (a b : Nat) : Option Nat :=
  if a * b ≤ U256MAX then some (a * b) else none

/-- Rust U256 checked_div: fails only on division by zero. -/
def checkedDivU256 (a b : Nat) : Option Nat :=
  if b = 0 then none else some (a / b)

/-- U256::try_to_u128: fails when the value does not fit a u128. -/
def tryToU128 (a : Nat) : Option Nat :=
  if a ≤ U128MAX then some a else none

/-- calculate_base_asset_price_with_mantissa of math/curve.rs. Every unwrap
of the source panics on None; the panic is embedded as the none outcome. -/
def calculate_base_asset_price_with_mantissa (unpegged_quote_asset_amount : Nat)
    (base_asset_amount : Nat) (peg_multiplier : Nat) : Option Nat :=
  match checkedMulU128 unpegged_quote_asset_amount peg_multiplier with
  | none => none
  | some peg_quote_asset_amount =>
    match checkedDivU128 MARK_PRICE_MANTISSA PEG_PRECISION with
    | none => none
    | some mantissa_over_peg =>
      match checkedMulU256 peg_quote_asset_amount mantissa_over_peg with
      | none => none
      | some prod =>
        match checkedDivU256 prod base_asset_amount with
        | none => none
        | some q => tryToU128 q

/-! Inversion lemmas for the checked-arithmetic embedding. -/

theorem liftMath_ok {α : Type} {o : Option α} {a : α}
    (h : liftMath o = Except.ok a) : o = some a := by
  cases o with
  | none => simp [liftMath] at h
  | some x => simpa [liftMath] using h

theorem liftCast_ok {α : Type} {o : Option α} {a : α}
    (h : liftCast o = Except.ok a) : o = some a := by
  cases o with
  | none => simp [liftCast] at h
  | some x => simpa [liftCast] using h

theorem checkedAddI128_some {a b r : Int} (h : checkedAddI128 a b = some r) :
    r = a + b ∧ I128MIN ≤ a + b ∧ a + b ≤ I128MAX := by
  unfold checkedAddI128 at h
  split at h
  · rename_i hr
    cases h
    exact ⟨rfl, hr.1, hr.2⟩
  · cases h

theorem checkedSubI128_some {a b r : Int} (h : checkedSubI128 a b = some r) :
    r = a - b ∧ I128MIN ≤ a - b ∧ a - b ≤ I128MAX := by
  unfold checkedSubI128 at h
  split at h
  · rename_i hr
    cases h
    exact ⟨rfl, hr.1, hr.2⟩
  · cases h

theorem checkedMulI128_some {a b r : Int} (h : checkedMulI128 a b = some r) :
    r = a * b ∧ I128MIN ≤ a * b ∧ a * b ≤ I128MAX := by
  unfold checkedMulI128 at h
  split at h
  · rename_i hr
    cases h
    exact ⟨rfl, hr.1, hr.2⟩
  · cases h

theorem checkedDivI128_some {a b r : Int} (h : checkedDivI128 a b = some r) :
    r = Int.tdiv a b := by
  unfold checkedDivI128 at h
  split at h
  · cases h
  · cases h
    rfl

theorem checkedSubI64_some {a b r : Int} (h : checkedSubI64 a b = some r) :
    r = a - b := by
  unfold checkedSubI64 at h
  split at h
  · cases h
    rfl
  · cases h

theorem castU128toI128_some {n : Nat} {r : Int} (h : castU128toI128 n = some r) :
    r = (n : Int) := by
  unfold castU128toI128 at h
  split at h
  · cases h
    rfl
  · cases h

/-- C10: for every oracle account and clock slot, the QuoteAsset source of
get_oracle_price always succeeds with price one in fixed-point
(MARK_PRICE_PRECISION_I128), confidence 1, delay 0 and sufficient data
points, independent of the account and of the clock. -/
theorem quote_asset_price_constant (price_oracle : AccountInfo) (clock_slot : Nat) :
    get_oracle_price OracleSource.QuoteAsset price_oracle clock_slot =
      Except.ok
        { price := MARK_PRICE_PRECISION_I128
          confidence := 1
          delay := 0
          has_sufficient_number_of_data_points := true } := rfl

/-- C9: calculate_base_asset_price_with_mantissa fails definitely (returns
none, the embedded unwrap panic) exactly when base_asset_amount is zero or
when the first u128 product or the final quotient exceeds u128, and on
success it returns the exact mathematical floor value; the intermediate
multiply-then-divide product is carried at 256 bits and is not constrained
to u128. -/
theorem curve_price_characterization (unpegged_quote_asset_amount base_asset_amount peg_multiplier : Nat) :
    calculate_base_asset_price_with_mantissa unpegged_quote_asset_amount
        base_asset_amount peg_multiplier =
      (if base_asset_amount ≠ 0 ∧
          unpegged_quote_asset_amount * peg_multiplier ≤ U128MAX ∧
          unpegged_quote_asset_amount * peg_multiplier *
              (MARK_PRICE_MANTISSA / PEG_PRECISION) / base_asset_amount ≤ U128MAX then
        some (unpegged_quote_asset_amount * peg_multiplier *
          (MARK_PRICE_MANTISSA / PEG_PRECISION) / base_asset_amount)
       else none) := by
  unfold calculate_base_asset_price_with_mantissa
  unfold checkedMulU128 checkedDivU128 checkedMulU256 checkedDivU256 tryToU128
  have hc : MARK_PRICE_MANTISSA / PEG_PRECISION = 10 ^ 7 := by decide
  by_cases h1 : unpegged_quote_asset_amount * peg_multiplier ≤ U128MAX
  · have h2 : ¬ (PEG_PRECISION = 0) := by decide
    have h3 : unpegged_quote_asset_amount * peg_multiplier *
        (MARK_PRICE_MANTISSA / PEG_PRECISION) ≤ U256MAX := by
      rw [hc]
      calc unpegged_quote_asset_amount * peg_multiplier * 10 ^ 7
          ≤ U128MAX * 10 ^ 7 := Nat.mul_le_mul_right _ h1
        _ ≤ U256MAX := by decide
    by_cases h4 : base_asset_amount = 0
    · simp [h1, h2, h3, h4]
    · by_cases h5 : unpegged_quote_asset_amount * peg_multiplier *
          (MARK_PRICE_MANTISSA / PEG_PRECISION) / base_asset_amount ≤ U128MAX
      · simp [h1, h2, h3, h4, h5]
      · simp [h1, h2, h3, h4, h5]
  · simp [h1]


/-- C1 counterexample: the 0.1 percent confidence floor does not hold for
every oracle source. A Pyth account reporting a non-negative spread
(confidence 0) with price 100 and exponent 0 yields a normalized price of
10 ^ 12 and a confidence of 0, strictly below 0.1 percent of the absolute
price. -/
theorem confidence_floor_counterexample :
    get_oracle_price OracleSource.Pyth
      { pyth_data := some { agg_price := 100, agg_conf := 0, expo := 0, valid_slot := 0 }
        switchboard_data := none } 5 =
      Except.ok
        { price := 10 ^ 12
          confidence := 0
          delay := 5
          has_sufficient_number_of_data_points := true } ∧
    (0 : Nat) < ((10 ^ 12 : Int).natAbs / 1000) := by
  constructor
  · set_option maxRecDepth 4000 in decide
  · decide

/-- C1 amended: for the Switchboard source the property holds. Whenever
get_oracle_price succeeds on a Switchboard account, if the converted
standard deviation is negative the returned confidence is the maximum
representable u128 value, and if it is non-negative the returned confidence
is at least the floor of one thousandth of the absolute returned price. -/
theorem switchboard_confidence_floor (price_oracle : AccountInfo) (clock_slot : Nat)
    (aggregator_data : AggregatorAccountData) (confidence0 : Int) (d : OraclePriceData)
    (hacc : price_oracle.switchboard_data = some aggregator_data)
    (hc0 : convert_switchboard_decimal aggregator_data.std_deviation = Except.ok confidence0)
    (h : get_oracle_price OracleSource.Switchboard price_oracle clock_slot = Except.ok d) :
    (confidence0 < 0 → d.confidence = U128MAX) ∧
    (0 ≤ confidence0 → d.price.natAbs / 1000 ≤ d.confidence) := by
  have h' : get_switchboard_price price_oracle clock_slot = Except.ok d := h
  unfold get_switchboard_price at h'
  simp only [hacc] at h'
  split at h'
  · exact absurd h' (by simp)
  · rename_i price hprice
    split at h'
    · exact absurd h' (by simp)
    · rename_i c2 hc2
      rw [hc0] at hc2
      injection hc2 with hc2
      subst hc2
      split at h'
      · exact absurd h' (by simp)
      · rename_i confidence hconf
        split at h'
        · exact absurd h' (by simp)
        · split at h'
          · exact absurd h' (by simp)
          · split at h'
            · exact absurd h' (by simp)
            · cases h'
              by_cases hneg : confidence0 < 0
              · rw [if_pos hneg] at hconf
                injection hconf with hconf
                subst hconf
                exact ⟨fun _ => rfl, fun hge => absurd hneg (not_lt.mpr hge)⟩
              · rw [if_neg hneg] at hconf
                rw [show checkedDivU128 price.natAbs 1000 =
                      some (price.natAbs / 1000) from by simp [checkedDivU128]] at hconf
                simp only [liftMath] at hconf
                injection hconf with hconf
                subst hconf
                exact ⟨fun hlt => absurd hlt hneg, fun _ => le_max_right _ _⟩

/-- Concrete Switchboard aggregator for the confidence-floor witness:
result 5.000 at scale 3, standard deviation 0.001. -/
def sbAggW : AggregatorAccountData :=
  { result := { mantissa := 5000, scale := 3 }
    std_deviation := { mantissa := 1, scale := 3 }
    round_open_slot := 0
    num_success := 3
    min_oracle_results := 1 }

/-- Oracle account wrapping sbAggW. -/
def sbAccW : AccountInfo := { pyth_data := none, switchboard_data := some sbAggW }

/-- The observation get_oracle_price returns on sbAccW at slot 9. -/
def sbDataW : OraclePriceData :=
  { price := 5 * 10 ^ 10
    confidence := 5 * 10 ^ 7
    delay := 9
    has_sufficient_number_of_data_points := true }

/-- C1 amended witness: both conjuncts discharged on the concrete
Switchboard account sbAccW. -/
theorem switchboard_confidence_floor_witness :
    ((10 : Int) ^ 7 < 0 → sbDataW.confidence = U128MAX) ∧
    ((0 : Int) ≤ 10 ^ 7 → sbDataW.price.natAbs / 1000 ≤ sbDataW.confidence) :=
  switchboard_confidence_floor sbAccW 9 sbAggW (10 ^ 7) sbDataW rfl
    (by set_option maxRecDepth 4000 in decide)
    (by set_option maxRecDepth 4000 in decide)

/-- C3: for every funding period greater than one and every last update
timestamp, whenever the wait computation of update_funding_rate returns a
value it lies in the interval from 0 (exclusive) to two periods
(inclusive), and it equals two periods minus the delay when the delay
exceeds a third of the period, the period minus the delay when the delay is
nonzero and at most a third, and exactly one period when the delay is zero;
the final subtract-one-period correction applies whenever the wait exceeds
two periods, which never occurs here. -/
theorem next_update_wait_bounds (funding_period last_funding_rate_ts w : Int)
    (hp : 1 < funding_period)
    (h : nextUpdateWait funding_period last_funding_rate_ts = some w) :
    0 < w ∧ w ≤ 2 * funding_period ∧
    (last_funding_rate_ts % funding_period = 0 → w = funding_period) ∧
    (0 < last_funding_rate_ts % funding_period ∧
        last_funding_rate_ts % funding_period ≤ Int.tdiv funding_period 3 →
      w = funding_period - last_funding_rate_ts % funding_period) ∧
    (Int.tdiv funding_period 3 < last_funding_rate_ts % funding_period →
      w = 2 * funding_period - last_funding_rate_ts % funding_period) := by
  have hpos : (0 : Int) < funding_period := by omega
  have hd0 : 0 ≤ last_funding_rate_ts % funding_period :=
    Int.emod_nonneg _ (by omega)
  have hd1 : last_funding_rate_ts % funding_period < funding_period :=
    Int.emod_lt_of_pos _ hpos
  have htd : 0 ≤ Int.tdiv funding_period 3 := Int.tdiv_nonneg (by omega) (by omega)
  unfold nextUpdateWait at h
  rw [if_pos (by omega : funding_period > 1)] at h
  by_cases hz : last_funding_rate_ts % funding_period = 0
  · rw [if_neg (by simpa using hz)] at h
    injection h with h
    omega
  · rw [if_pos (by simpa using hz)] at h
    split at h
    · cases h
    · rename_i max_delay hmax
      rw [show checkedDivI64 funding_period 3 = some (Int.tdiv funding_period 3) from by
        simp [checkedDivI64]] at hmax
      injection hmax with hmax
      subst hmax
      split at h
      · cases h
      · rename_i two_p htwo
        unfold checkedMulI64 at htwo
        split at htwo
        · rename_i hrange
          injection htwo with htwo
          subst htwo
          split at h
          · cases h
          · rename_i w0 hw0
            by_cases hbig :
                last_funding_rate_ts % funding_period > Int.tdiv funding_period 3
            · rw [if_pos hbig] at hw0
              unfold checkedSubI64 at hw0
              split at hw0
              · injection hw0 with hw0
                subst hw0
                split at h
                · rename_i habs
                  exact absurd habs (by omega)
                · injection h with h
                  omega
              · cases hw0
            · rw [if_neg hbig] at hw0
              unfold checkedSubI64 at hw0
              split at hw0
              · injection hw0 with hw0
                subst hw0
                split at h
                · rename_i habs
                  exact absurd habs (by omega)
                · injection h with h
                  omega
              · cases hw0
        · cases htwo

/-- C3 witness: funding period 3600 with last update at 1800 (delay 1800,
above a third of the period) gives a wait of 5400. -/
theorem next_update_wait_bounds_witness :
    (0 : Int) < 5400 ∧ (5400 : Int) ≤ 2 * 3600 ∧
    ((1800 : Int) % 3600 = 0 → (5400 : Int) = 3600) ∧
    (0 < (1800 : Int) % 3600 ∧ (1800 : Int) % 3600 ≤ Int.tdiv 3600 3 →
      (5400 : Int) = 3600 - (1800 : Int) % 3600) ∧
    (Int.tdiv 3600 3 < (1800 : Int) % 3600 →
      (5400 : Int) = 2 * 3600 - (1800 : Int) % 3600) :=
  next_update_wait_bounds 3600 1800 5400 (by decide) (by decide)

/-- C4 amended: for every oracle TWAP and every price spread, the clamped
spread computed by update_funding_rate is bounded in absolute value by the
absolute value of one thirty-third of the oracle TWAP (for a non-negative
oracle TWAP this is exactly the claimed bound oracle_twap / 33). -/
theorem clamped_spread_abs_bound (oracle_price_twap price_spread : Int) :
    (clamp_price_spread price_spread (Int.tdiv oracle_price_twap 33)).natAbs ≤
      (Int.tdiv oracle_price_twap 33).natAbs := by
  generalize Int.tdiv oracle_price_twap 33 = m
  unfold clamp_price_spread
  rcases max_cases (-m) (min price_spread m) with ⟨h1, h2⟩ | ⟨h1, h2⟩ <;>
    rcases min_cases price_spread m with ⟨h3, h4⟩ | ⟨h3, h4⟩ <;> omega

/-- C4 counterexample: a funding update that proceeds with a negative
oracle TWAP of -33 and a mark TWAP of 0. The price spread is 33, the
maximum spread is -1, the clamped spread is 1, and the claimed bound
(absolute clamped spread at most oracle_twap / 33 = -1) fails. The first
conjunct shows the update proceeds and records these TWAPs. -/
theorem clamped_spread_bound_counterexample :
    update_funding_rate (fun _ _ _ => Except.ok (-33)) (fun _ _ => Except.ok 0)
      (fun _ fr => Except.ok (fr, fr)) 9
      { amm :=
          { cumulative_funding_rate_long := 0
            cumulative_funding_rate_short := 0
            last_funding_rate := 0
            last_funding_rate_ts := 0
            funding_period := 3600
            last_oracle_price_twap := 0
            last_mark_price_twap := 0 }
        next_funding_rate_record_id := 7 }
      3600
      (Except.ok (false,
        { price := 0, confidence := 0, delay := 0,
          has_sufficient_number_of_data_points := true }))
      false =
      Except.ok
        ({ amm :=
            { cumulative_funding_rate_long := 416
              cumulative_funding_rate_short := 416
              last_funding_rate := 416
              last_funding_rate_ts := 3600
              funding_period := 3600
              last_oracle_price_twap := -33
              last_mark_price_twap := 0 }
           next_funding_rate_record_id := 8 },
         some
           { ts := 3600
             record_id := 7
             market_index := 9
             funding_rate := 416
             cumulative_funding_rate_long := 416
             cumulative_funding_rate_short := 416
             mark_price_twap := 0
             oracle_price_twap := -33 }) ∧
    clamp_price_spread ((0 : Int) - (-33)) (Int.tdiv (-33) 33) = 1 ∧
    ¬ (((clamp_price_spread ((0 : Int) - (-33)) (Int.tdiv (-33) 33)).natAbs : Int) ≤
        Int.tdiv (-33) 33) := by
  refine ⟨?_, by decide, by decide⟩
  set_option maxRecDepth 8000 in decide

/-- C5 counterexample: a paused invocation does not always return success.
The guard/oracle read runs before the pause check, so with funding_paused
set and an unreadable oracle the call returns the UnableToLoadOracle error
instead of success-without-changes. -/
theorem skip_path_counterexample :
    update_funding_rate (fun _ _ _ => Except.ok 0) (fun _ _ => Except.ok 0)
      (fun _ fr => Except.ok (fr, fr)) 0
      { amm :=
          { cumulative_funding_rate_long := 0
            cumulative_funding_rate_short := 0
            last_funding_rate := 0
            last_funding_rate_ts := 0
            funding_period := 3600
            last_oracle_price_twap := 0
            last_mark_price_twap := 0 }
        next_funding_rate_record_id := 0 }
      100 (Except.error ErrorCode.UnableToLoadOracle) true =
      Except.error ErrorCode.UnableToLoadOracle := by
  decide

set_option maxRecDepth 100000 in
/-- C5 amended: whenever the pre-gate computations succeed (the elapsed-time
subtraction, the guard call and the wait computation) and the invocation is
paused, blocked by the guard, or not yet due, update_funding_rate returns
success with the market unchanged in every field and no record emitted. -/
theorem skip_path_no_mutation
    (oracleTwapF : Int → Int → OraclePriceData → Except ErrorCode Int)
    (markTwapF : Nat → Int → Except ErrorCode Nat)
    (splitF : Market → Int → Except ErrorCode (Int × Int))
    (market_index : Nat) (market : Market) (now : Int)
    (blockOpRes : Except ErrorCode (Bool × OraclePriceData)) (funding_paused : Bool)
    (block : Bool) (opd : OraclePriceData) (elapsed wait : Int)
    (hb : blockOpRes = Except.ok (block, opd))
    (he : checkedSubI64 now market.amm.last_funding_rate_ts = some elapsed)
    (hw : nextUpdateWait market.amm.funding_period market.amm.last_funding_rate_ts =
      some wait)
    (hskip : funding_paused = true ∨ block = true ∨ elapsed < wait) :
    update_funding_rate oracleTwapF markTwapF splitF market_index market now
        blockOpRes funding_paused =
      Except.ok (market, none) := by
  subst hb
  unfold update_funding_rate
  rw [he, hw]
  simp only [liftMath]
  rw [if_neg]
  push_neg
  intro hpause hblock
  rcases hskip with hs | hs | hs
  · exact absurd hpause (by rw [hs]; simp)
  · exact absurd hblock (by rw [hs]; simp)
  · omega

/-- C5 amended witness: a concrete paused invocation with a readable guard
result returns success with the market unchanged and no record. -/
theorem skip_path_no_mutation_witness :
    update_funding_rate (fun _ _ _ => Except.ok 0) (fun _ _ => Except.ok 0)
      (fun _ fr => Except.ok (fr, fr)) 3
      { amm :=
          { cumulative_funding_rate_long := 11
            cumulative_funding_rate_short := -4
            last_funding_rate := 2
            last_funding_rate_ts := 0
            funding_period := 3600
            last_oracle_price_twap := 5
            last_mark_price_twap := 6 }
        next_funding_rate_record_id := 1 }
      100
      (Except.ok (false,
        { price := 0, confidence := 0, delay := 0,
          has_sufficient_number_of_data_points := true }))
      true =
      Except.ok
        ({ amm :=
            { cumulative_funding_rate_long := 11
              cumulative_funding_rate_short := -4
              last_funding_rate := 2
              last_funding_rate_ts := 0
              funding_period := 3600
              last_oracle_price_twap := 5
              last_mark_price_twap := 6 }
           next_funding_rate_record_id := 1 }, none) :=
  skip_path_no_mutation _ _ _ 3 _ 100 _ true false
    { price := 0, confidence := 0, delay := 0,
      has_sufficient_number_of_data_points := true }
    100 3600 rfl (by decide) (by decide) (Or.inl rfl)

set_option maxRecDepth 100000 in
/-- C7: for every funding update that proceeds (returns success with a
record emitted), the funding rate stored in the market and in the record
equals the clamped price spread times FUNDING_PAYMENT_PRECISION divided by
the period adjustment (24 hours divided by the larger of one hour and the
funding period, in truncating integer division), and the long and short
components produced by the split collaborator are added to their cumulative
counters by checked additions that stay in the i128 range. -/
theorem funding_rate_formula
    (oracleTwapF : Int → Int → OraclePriceData → Except ErrorCode Int)
    (markTwapF : Nat → Int → Except ErrorCode Nat)
    (splitF : Market → Int → Except ErrorCode (Int × Int))
    (market_index : Nat) (market : Market) (now : Int)
    (blockOpRes : Except ErrorCode (Bool × OraclePriceData)) (funding_paused : Bool)
    (m' : Market) (rec : FundingRateRecord) (block : Bool) (opd : OraclePriceData)
    (oracle_price_twap : Int) (mid_price_twap : Nat) (frl frs : Int)
    (h : update_funding_rate oracleTwapF markTwapF splitF market_index market now
      blockOpRes funding_paused = Except.ok (m', some rec))
    (hb : blockOpRes = Except.ok (block, opd))
    (ho : oracleTwapF market.amm.last_oracle_price_twap now opd =
      Except.ok oracle_price_twap)
    (hm : markTwapF market.amm.last_mark_price_twap now = Except.ok mid_price_twap)
    (hs : splitF
        { market with
            amm :=
              { market.amm with
                  last_oracle_price_twap := oracle_price_twap
                  last_mark_price_twap := mid_price_twap } }
        (Int.tdiv
          (clamp_price_spread ((mid_price_twap : Int) - oracle_price_twap)
              (Int.tdiv oracle_price_twap 33) * FUNDING_PAYMENT_PRECISION_I128)
          (Int.tdiv (24 * ONE_HOUR) (max ONE_HOUR market.amm.funding_period))) =
      Except.ok (frl, frs)) :
    rec.funding_rate =
      Int.tdiv
        (clamp_price_spread ((mid_price_twap : Int) - oracle_price_twap)
            (Int.tdiv oracle_price_twap 33) * FUNDING_PAYMENT_PRECISION_I128)
        (Int.tdiv (24 * ONE_HOUR) (max ONE_HOUR market.amm.funding_period)) ∧
    m'.amm.last_funding_rate = rec.funding_rate ∧
    m'.amm.cumulative_funding_rate_long =
      market.amm.cumulative_funding_rate_long + frl ∧
    m'.amm.cumulative_funding_rate_short =
      market.amm.cumulative_funding_rate_short + frs ∧
    I128MIN ≤ market.amm.cumulative_funding_rate_long + frl ∧
    market.amm.cumulative_funding_rate_long + frl ≤ I128MAX ∧
    I128MIN ≤ market.amm.cumulative_funding_rate_short + frs ∧
    market.amm.cumulative_funding_rate_short + frs ≤ I128MAX := by
  unfold update_funding_rate at h
  split at h
  · exact absurd h (by simp)
  · rename_i elapsed helapsed
    split at h
    · exact absurd hb (by simp)
    · rename_i b0 opd0
      injection hb with hb
      injection hb with hb1 hb2
      cases hb1
      cases hb2
      split at h
      · exact absurd h (by simp)
      · rename_i wait hwait
        split at h
        · rename_i hgate
          dsimp only at h
          split at h
          · exact absurd h (by simp)
          · rename_i ot hot
            rw [ho] at hot
            injection hot with hot
            cases hot
            split at h
            · exact absurd h (by simp)
            · rename_i mt hmt
              rw [hm] at hmt
              injection hmt with hmt
              cases hmt
              split at h
              · exact absurd h (by simp)
              · rename_i day hday
                obtain ⟨hd, -, -⟩ := checkedMulI128_some (liftMath_ok hday)
                subst hd
                split at h
                · exact absurd h (by simp)
                · rename_i pa hpa
                  have hpa' := checkedDivI128_some (liftMath_ok hpa)
                  subst hpa'
                  split at h
                  · exact absurd h (by simp)
                  · rename_i mid_i hmid
                    have hmid' := castU128toI128_some (liftCast_ok hmid)
                    subst hmid'
                    split at h
                    · exact absurd h (by simp)
                    · rename_i ps hps
                      obtain ⟨hps', -, -⟩ := checkedSubI128_some (liftMath_ok hps)
                      subst hps'
                      split at h
                      · exact absurd h (by simp)
                      · rename_i mps hmps
                        have hmps' := checkedDivI128_some (liftMath_ok hmps)
                        subst hmps'
                        split at h
                        · exact absurd h (by simp)
                        · rename_i scaled hscaled
                          obtain ⟨hsc, -, -⟩ :=
                            checkedMulI128_some (liftMath_ok hscaled)
                          subst hsc
                          split at h
                          · exact absurd h (by simp)
                          · rename_i fr hfr
                            have hfr' := checkedDivI128_some (liftMath_ok hfr)
                            subst hfr'
                            split at h
                            · exact absurd h (by simp)
                            · rename_i frl' frs' hsp
                              rw [hs] at hsp
                              injection hsp with hsp
                              injection hsp with hsp1 hsp2
                              cases hsp1
                              cases hsp2
                              split at h
                              · exact absurd h (by simp)
                              · rename_i new_long hnl
                                obtain ⟨hnl', hnllo, hnlhi⟩ :=
                                  checkedAddI128_some (liftMath_ok hnl)
                                subst hnl'
                                split at h
                                · exact absurd h (by simp)
                                · rename_i new_short hns
                                  obtain ⟨hns', hnslo, hnshi⟩ :=
                                    checkedAddI128_some (liftMath_ok hns)
                                  subst hns'
                                  injection h with h
                                  injection h with h1 h2
                                  cases h1
                                  injection h2 with h2
                                  cases h2
                                  exact ⟨rfl, rfl, rfl, rfl, hnllo, hnlhi,
                                    hnslo, hnshi⟩
        · exact absurd h (by simp)

/-- Market fixture for the funding-rate formula witness. -/
def c7MarketW : Market :=
  { amm :=
      { cumulative_funding_rate_long := 5
        cumulative_funding_rate_short := -7
        last_funding_rate := 0
        last_funding_rate_ts := 0
        funding_period := 3600
        last_oracle_price_twap := 0
        last_mark_price_twap := 0 }
    next_funding_rate_record_id := 2 }

/-- Updated market produced by the witness run. -/
def c7MarketW' : Market :=
  { amm :=
      { cumulative_funding_rate_long := 6
        cumulative_funding_rate_short := -8
        last_funding_rate := 0
        last_funding_rate_ts := 3600
        funding_period := 3600
        last_oracle_price_twap := 10
        last_mark_price_twap := 11 }
    next_funding_rate_record_id := 3 }

/-- Record emitted by the witness run. -/
def c7RecW : FundingRateRecord :=
  { ts := 3600
    record_id := 2
    market_index := 4
    funding_rate := 0
    cumulative_funding_rate_long := 6
    cumulative_funding_rate_short := -8
    mark_price_twap := 11
    oracle_price_twap := 10 }

/-- C7 witness: a concrete proceeding update (oracle TWAP 10, mark TWAP 11,
split adding one to the long side and subtracting one from the short side)
on which all hypotheses are discharged. -/
theorem funding_rate_formula_witness :
    c7RecW.funding_rate =
      Int.tdiv
        (clamp_price_spread (((11 : Nat) : Int) - 10) (Int.tdiv 10 33) *
          FUNDING_PAYMENT_PRECISION_I128)
        (Int.tdiv (24 * ONE_HOUR) (max ONE_HOUR c7MarketW.amm.funding_period)) ∧
    c7MarketW'.amm.last_funding_rate = c7RecW.funding_rate ∧
    c7MarketW'.amm.cumulative_funding_rate_long =
      c7MarketW.amm.cumulative_funding_rate_long + 1 ∧
    c7MarketW'.amm.cumulative_funding_rate_short =
      c7MarketW.amm.cumulative_funding_rate_short + (-1) ∧
    I128MIN ≤ c7MarketW.amm.cumulative_funding_rate_long + 1 ∧
    c7MarketW.amm.cumulative_funding_rate_long + 1 ≤ I128MAX ∧
    I128MIN ≤ c7MarketW.amm.cumulative_funding_rate_short + (-1) ∧
    c7MarketW.amm.cumulative_funding_rate_short + (-1) ≤ I128MAX :=
  funding_rate_formula (fun _ _ _ => Except.ok 10) (fun _ _ => Except.ok 11)
    (fun _ fr => Except.ok (fr + 1, fr - 1)) 4 c7MarketW 3600
    (Except.ok (false,
      { price := 0, confidence := 0, delay := 0,
        has_sufficient_number_of_data_points := true }))
    false c7MarketW' c7RecW false
    { price := 0, confidence := 0, delay := 0,
      has_sufficient_number_of_data_points := true }
    10 11 1 (-1)
    (by set_option maxRecDepth 8000 in decide) rfl rfl rfl
    (by set_option maxRecDepth 8000 in decide)

theorem get_ref_ok {mm : MarketMap} {i : Nat} {mkt : Market}
    (h : MarketMap.get_ref mm i = Except.ok mkt) : mm i = some mkt := by
  unfold MarketMap.get_ref at h
  split at h
  · rename_i m2 hm2
    injection h with h
    rw [h] at hm2
    exact hm2
  · exact absurd h (by simp)

theorem settle_position_inv (authority user_key : Nat) (mm : MarketMap) (now : Int)
    (p p' : MarketPosition) (orec : Option FundingPaymentRecord)
    (h : settle_position authority user_key mm now p = Except.ok (p', orec)) :
    (p.base_asset_amount = 0 ∧ p' = p ∧ orec = none) ∨
    (p.base_asset_amount ≠ 0 ∧
      ∃ mkt, mm p.market_index = some mkt ∧
        (((if p.base_asset_amount > 0 then mkt.amm.cumulative_funding_rate_long
           else mkt.amm.cumulative_funding_rate_short) =
            p.last_cumulative_funding_rate ∧ p' = p ∧ orec = none) ∨
         ((if p.base_asset_amount > 0 then mkt.amm.cumulative_funding_rate_long
           else mkt.amm.cumulative_funding_rate_short) ≠
            p.last_cumulative_funding_rate ∧
          ∃ pay0 pay,
            calculate_funding_payment
              (if p.base_asset_amount > 0 then mkt.amm.cumulative_funding_rate_long
               else mkt.amm.cumulative_funding_rate_short) p = Except.ok pay0 ∧
            checkedDivI128 pay0 AMM_TO_QUOTE_PRECISION_RATIO_I128 = some pay ∧
            p' = { p with
                    last_cumulative_funding_rate :=
                      if p.base_asset_amount > 0 then mkt.amm.cumulative_funding_rate_long
                      else mkt.amm.cumulative_funding_rate_short
                    last_funding_rate_ts := mkt.amm.last_funding_rate_ts
                    unsettled_pnl := p.unsettled_pnl + pay } ∧
            orec = some
              { ts := now
                user_authority := authority
                user := user_key
                market_index := p.market_index
                funding_payment := pay
                user_last_cumulative_funding := p.last_cumulative_funding_rate
                user_last_funding_rate_ts := p.last_funding_rate_ts
                amm_cumulative_funding_long := mkt.amm.cumulative_funding_rate_long
                amm_cumulative_funding_short := mkt.amm.cumulative_funding_rate_short
                base_asset_amount := p.base_asset_amount }))) := by
  unfold settle_position at h
  by_cases hz : p.base_asset_amount = 0
  · rw [if_pos hz] at h
    injection h with h
    injection h with h1 h2
    exact Or.inl ⟨hz, h1.symm, h2.symm⟩
  · rw [if_neg hz] at h
    split at h
    · exact absurd h (by simp)
    · rename_i mkt hmkt
      have hmm : mm p.market_index = some mkt := get_ref_ok hmkt
      dsimp only at h
      by_cases hsign : p.base_asset_amount > 0
      · simp only [if_pos hsign] at h ⊢
        by_cases hne :
            mkt.amm.cumulative_funding_rate_long ≠ p.last_cumulative_funding_rate
        · rw [if_pos hne] at h
          split at h
          · exact absurd h (by simp)
          · rename_i pay0 hpay0
            split at h
            · exact absurd h (by simp)
            · rename_i pay hpay
              have hpay' := liftMath_ok hpay
              split at h
              · exact absurd h (by simp)
              · rename_i newu hnew
                obtain ⟨hnu, -, -⟩ := checkedAddI128_some (liftMath_ok hnew)
                subst hnu
                injection h with h
                injection h with h1 h2
                exact Or.inr ⟨hz, mkt, hmm,
                  Or.inr ⟨hne, pay0, pay, hpay0, hpay', h1.symm, h2.symm⟩⟩
        · rw [if_neg hne] at h
          injection h with h
          injection h with h1 h2
          exact Or.inr ⟨hz, mkt, hmm,
            Or.inl ⟨not_ne_iff.mp hne, h1.symm, h2.symm⟩⟩
      · simp only [if_neg hsign] at h ⊢
        by_cases hne :
            mkt.amm.cumulative_funding_rate_short ≠ p.last_cumulative_funding_rate
        · rw [if_pos hne] at h
          split at h
          · exact absurd h (by simp)
          · rename_i pay0 hpay0
            split at h
            · exact absurd h (by simp)
            · rename_i pay hpay
              have hpay' := liftMath_ok hpay
              split at h
              · exact absurd h (by simp)
              · rename_i newu hnew
                obtain ⟨hnu, -, -⟩ := checkedAddI128_some (liftMath_ok hnew)
                subst hnu
                injection h with h
                injection h with h1 h2
                exact Or.inr ⟨hz, mkt, hmm,
                  Or.inr ⟨hne, pay0, pay, hpay0, hpay', h1.symm, h2.symm⟩⟩
        · rw [if_neg hne] at h
          injection h with h
          injection h with h1 h2
          exact Or.inr ⟨hz, mkt, hmm,
            Or.inl ⟨not_ne_iff.mp hne, h1.symm, h2.symm⟩⟩

theorem settle_position_zero (authority user_key : Nat) (mm : MarketMap) (now : Int)
    (p : MarketPosition) (hz : p.base_asset_amount = 0) :
    settle_position authority user_key mm now p = Except.ok (p, none) := by
  unfold settle_position
  rw [if_pos hz]

theorem settle_position_noop (authority user_key : Nat) (mm : MarketMap) (now : Int)
    (p : MarketPosition) (mkt : Market)
    (hnz : p.base_asset_amount ≠ 0)
    (hmm : mm p.market_index = some mkt)
    (heq : (if p.base_asset_amount > 0 then mkt.amm.cumulative_funding_rate_long
            else mkt.amm.cumulative_funding_rate_short) =
      p.last_cumulative_funding_rate) :
    settle_position authority user_key mm now p = Except.ok (p, none) := by
  unfold settle_position
  rw [if_neg hnz]
  rw [show MarketMap.get_ref mm p.market_index = Except.ok mkt from by
    unfold MarketMap.get_ref; rw [hmm]]
  dsimp only
  rw [if_neg (not_ne_iff.mpr heq)]

theorem settle_position_restep (authority user_key : Nat) (mm : MarketMap) (now : Int)
    (p p' : MarketPosition) (orec : Option FundingPaymentRecord)
    (h : settle_position authority user_key mm now p = Except.ok (p', orec)) :
    settle_position authority user_key mm now p' = Except.ok (p', none) := by
  rcases settle_position_inv _ _ _ _ _ _ _ h with ⟨hz, rfl, -⟩ | ⟨hnz, mkt, hmm, hcase⟩
  · exact settle_position_zero _ _ _ _ _ hz
  · rcases hcase with ⟨heq, rfl, -⟩ | ⟨hne, pay0, pay, -, -, rfl, -⟩
    · exact settle_position_noop _ _ _ _ _ _ hnz hmm heq
    · exact settle_position_noop _ _ _ _ _ _ hnz hmm rfl

theorem settle_positions_forall2 (authority user_key : Nat) (mm : MarketMap) (now : Int)
    (ps ps' : List MarketPosition) (recs : List FundingPaymentRecord)
    (h : settle_positions authority user_key mm now ps = Except.ok (ps', recs)) :
    List.Forall₂ (fun p p' => ∃ orec,
      settle_position authority user_key mm now p = Except.ok (p', orec)) ps ps' := by
  induction ps generalizing ps' recs with
  | nil =>
    unfold settle_positions at h
    injection h with h
    injection h with h1 h2
    cases h1
    exact List.Forall₂.nil
  | cons p rest ih =>
    unfold settle_positions at h
    split at h
    · exact absurd h (by simp)
    · rename_i p' orec hp
      split at h
      · exact absurd h (by simp)
      · rename_i rest' recs0 hrest
        injection h with h
        injection h with h1 h2
        cases h1
        exact List.Forall₂.cons ⟨orec, hp⟩ (ih _ _ hrest)

theorem settle_positions_restep (authority user_key : Nat) (mm : MarketMap) (now : Int)
    (ps ps' : List MarketPosition) (recs : List FundingPaymentRecord)
    (h : settle_positions authority user_key mm now ps = Except.ok (ps', recs)) :
    settle_positions authority user_key mm now ps' = Except.ok (ps', []) := by
  induction ps generalizing ps' recs with
  | nil =>
    unfold settle_positions at h
    injection h with h
    injection h with h1 h2
    cases h1
    rfl
  | cons p rest ih =>
    unfold settle_positions at h
    split at h
    · exact absurd h (by simp)
    · rename_i p' orec hp
      split at h
      · exact absurd h (by simp)
      · rename_i rest' recs0 hrest
        injection h with h
        injection h with h1 h2
        cases h1
        have h1' := settle_position_restep _ _ _ _ _ _ _ hp
        have h2' := ih _ _ hrest
        unfold settle_positions
        rw [h1']
        dsimp only
        rw [h2']
        rfl

theorem settle_positions_rec_base (authority user_key : Nat) (mm : MarketMap) (now : Int)
    (ps ps' : List MarketPosition) (recs : List FundingPaymentRecord)
    (h : settle_positions authority user_key mm now ps = Except.ok (ps', recs)) :
    ∀ r ∈ recs, r.base_asset_amount ≠ 0 := by
  induction ps generalizing ps' recs with
  | nil =>
    unfold settle_positions at h
    injection h with h
    injection h with h1 h2
    cases h2
    simp
  | cons p rest ih =>
    unfold settle_positions at h
    split at h
    · exact absurd h (by simp)
    · rename_i p' orec hp
      split at h
      · exact absurd h (by simp)
      · rename_i rest' recs0 hrest
        injection h with h
        injection h with h1 h2
        cases h2
        intro r hr
        rw [List.mem_append] at hr
        rcases hr with hr | hr
        · cases orec with
          | none => simp at hr
          | some r0 =>
            have hr0 : r = r0 := by simpa using hr
            subst hr0
            rcases settle_position_inv _ _ _ _ _ _ _ hp with
              ⟨-, -, hno⟩ | ⟨hnz, mkt, -, hcase⟩
            · exact absurd hno (by simp)
            · rcases hcase with ⟨-, -, hno⟩ | ⟨-, pay0, pay, -, -, -, hsome⟩
              · exact absurd hno (by simp)
              · injection hsome with hsome
                rw [hsome]
                exact hnz
        · exact ih _ _ hrest r hr

/-- C2: settling funding twice with no intervening funding update is
idempotent: whenever settle_funding_payment succeeds, running it again on
the returned user against the same market map returns the same user with
every position's unsettled_pnl and last_cumulative_funding_rate unchanged
and emits no record. -/
theorem settle_funding_payment_idempotent (user : User) (user_key : Nat)
    (mm : MarketMap) (now : Int) (user1 : User) (recs : List FundingPaymentRecord)
    (h : settle_funding_payment user user_key mm now = Except.ok (user1, recs)) :
    settle_funding_payment user1 user_key mm now = Except.ok (user1, []) := by
  unfold settle_funding_payment at h ⊢
  split at h
  · exact absurd h (by simp)
  · rename_i ps' recs0 hps
    injection h with h
    injection h with h1 h2
    cases h1
    dsimp only
    rw [settle_positions_restep _ _ _ _ _ _ _ hps]

/-- Market map fixture for the settlement witnesses: market 0 with long
counter 2 and short counter -3. -/
def c2MapW : MarketMap := fun i =>
  if i = 0 then
    some
      { amm :=
          { cumulative_funding_rate_long := 2
            cumulative_funding_rate_short := -3
            last_funding_rate := 1
            last_funding_rate_ts := 50
            funding_period := 3600
            last_oracle_price_twap := 0
            last_mark_price_twap := 0 }
        next_funding_rate_record_id := 0 }
  else none

/-- User fixture before settlement: one long position not yet settled
against counter 2. -/
def c2UserW : User :=
  { authority := 1
    positions :=
      [{ market_index := 0
         base_asset_amount := 10 ^ 11
         last_cumulative_funding_rate := 0
         last_funding_rate_ts := 0
         unsettled_pnl := 0 }] }

/-- User fixture after settlement. -/
def c2UserW1 : User :=
  { authority := 1
    positions :=
      [{ market_index := 0
         base_asset_amount := 10 ^ 11
         last_cumulative_funding_rate := 2
         last_funding_rate_ts := 50
         unsettled_pnl := 2 }] }

/-- Record emitted by the first settlement of the fixture. -/
def c2RecW : FundingPaymentRecord :=
  { ts := 77
    user_authority := 1
    user := 9
    market_index := 0
    funding_payment := 2
    user_last_cumulative_funding := 0
    user_last_funding_rate_ts := 0
    amm_cumulative_funding_long := 2
    amm_cumulative_funding_short := -3
    base_asset_amount := 10 ^ 11 }

/-- C2 witness: on the concrete fixture the first settlement pays 2 into
the position, and the repeated settlement is a no-op. -/
theorem settle_funding_payment_idempotent_witness :
    settle_funding_payment c2UserW1 9 c2MapW 77 = Except.ok (c2UserW1, []) :=
  settle_funding_payment_idempotent c2UserW 9 c2MapW 77 c2UserW1 [c2RecW]
    (by set_option maxRecDepth 8000 in decide)

/-- C6: after a successful settlement pass, every position with nonzero
base_asset_amount carries last_cumulative_funding_rate equal to the
applicable market counter (long counter when positive, short counter when
negative), and whenever a position's last_cumulative_funding_rate changed,
its unsettled_pnl changed in lock-step by exactly the computed funding
payment of the same branch. -/
theorem settlement_counter_lockstep (user : User) (user_key : Nat) (mm : MarketMap)
    (now : Int) (user1 : User) (recs : List FundingPaymentRecord)
    (h : settle_funding_payment user user_key mm now = Except.ok (user1, recs)) :
    List.Forall₂ (fun p p' =>
      (p.base_asset_amount ≠ 0 →
        ∃ mkt, mm p.market_index = some mkt ∧
          p'.last_cumulative_funding_rate =
            (if p.base_asset_amount > 0 then mkt.amm.cumulative_funding_rate_long
             else mkt.amm.cumulative_funding_rate_short)) ∧
      (p'.last_cumulative_funding_rate ≠ p.last_cumulative_funding_rate →
        ∃ pay0 pay,
          calculate_funding_payment p'.last_cumulative_funding_rate p =
            Except.ok pay0 ∧
          checkedDivI128 pay0 AMM_TO_QUOTE_PRECISION_RATIO_I128 = some pay ∧
          p'.unsettled_pnl = p.unsettled_pnl + pay))
      user.positions user1.positions := by
  unfold settle_funding_payment at h
  split at h
  · exact absurd h (by simp)
  · rename_i ps' recs0 hps
    injection h with h
    injection h with h1 h2
    cases h1
    dsimp only
    refine List.Forall₂.imp ?_ (settle_positions_forall2 _ _ _ _ _ _ _ hps)
    rintro p p' ⟨orec, hp⟩
    rcases settle_position_inv _ _ _ _ _ _ _ hp with
      ⟨hz, rfl, -⟩ | ⟨hnz, mkt, hmm, hcase⟩
    · exact ⟨fun hn => absurd hz hn, fun hn => absurd rfl hn⟩
    · rcases hcase with ⟨heq, rfl, -⟩ | ⟨hne, pay0, pay, hp0, hdiv, rfl, -⟩
      · exact ⟨fun _ => ⟨mkt, hmm, heq.symm⟩, fun hn => absurd rfl hn⟩
      · exact ⟨fun _ => ⟨mkt, hmm, rfl⟩, fun _ => ⟨pay0, pay, hp0, hdiv, rfl⟩⟩

/-- C6 witness: the lock-step property instantiated on the concrete
settlement fixture. -/
theorem settlement_counter_lockstep_witness :
    List.Forall₂ (fun p p' =>
      (p.base_asset_amount ≠ 0 →
        ∃ mkt, c2MapW p.market_index = some mkt ∧
          p'.last_cumulative_funding_rate =
            (if p.base_asset_amount > 0 then mkt.amm.cumulative_funding_rate_long
             else mkt.amm.cumulative_funding_rate_short)) ∧
      (p'.last_cumulative_funding_rate ≠ p.last_cumulative_funding_rate →
        ∃ pay0 pay,
          calculate_funding_payment p'.last_cumulative_funding_rate p =
            Except.ok pay0 ∧
          checkedDivI128 pay0 AMM_TO_QUOTE_PRECISION_RATIO_I128 = some pay ∧
          p'.unsettled_pnl = p.unsettled_pnl + pay))
      c2UserW.positions c2UserW1.positions :=
  settlement_counter_lockstep c2UserW 9 c2MapW 77 c2UserW1 [c2RecW]
    (by set_option maxRecDepth 8000 in decide)

/-- C8: settle_funding_payment leaves every zero-size position entirely
unchanged, emits no record for it (every emitted record carries a nonzero
base_asset_amount), and for nonzero positions selects the long cumulative
counter when the position is long and the short counter when it is short. -/
theorem settlement_zero_skip (user : User) (user_key : Nat) (mm : MarketMap)
    (now : Int) (user1 : User) (recs : List FundingPaymentRecord)
    (h : settle_funding_payment user user_key mm now = Except.ok (user1, recs)) :
    List.Forall₂ (fun p p' =>
      (p.base_asset_amount = 0 → p' = p) ∧
      (p.base_asset_amount ≠ 0 → ∀ mkt, mm p.market_index = some mkt →
        p'.last_cumulative_funding_rate =
          (if p.base_asset_amount > 0 then mkt.amm.cumulative_funding_rate_long
           else mkt.amm.cumulative_funding_rate_short)))
      user.positions user1.positions ∧
    (∀ r ∈ recs, r.base_asset_amount ≠ 0) := by
  unfold settle_funding_payment at h
  split at h
  · exact absurd h (by simp)
  · rename_i ps' recs0 hps
    injection h with h
    injection h with h1 h2
    cases h1
    cases h2
    constructor
    · dsimp only
      refine List.Forall₂.imp ?_ (settle_positions_forall2 _ _ _ _ _ _ _ hps)
      rintro p p' ⟨orec, hp⟩
      rcases settle_position_inv _ _ _ _ _ _ _ hp with
        ⟨hz, rfl, -⟩ | ⟨hnz, mkt, hmm, hcase⟩
      · exact ⟨fun _ => rfl, fun hn => absurd hz hn⟩
      · refine ⟨fun hzz => absurd hzz hnz, fun _ mkt2 hmm2 => ?_⟩
        have hmk : mkt = mkt2 := by
          rw [hmm] at hmm2
          injection hmm2
        cases hmk
        rcases hcase with ⟨heq, rfl, -⟩ | ⟨hne, pay0, pay, -, -, rfl, -⟩
        · exact heq.symm
        · rfl
    · exact settle_positions_rec_base _ _ _ _ _ _ _ hps

/-- C8 witness: the skip-and-select property instantiated on the concrete
settlement fixture. -/
theorem settlement_zero_skip_witness :
    List.Forall₂ (fun p p' =>
      (p.base_asset_amount = 0 → p' = p) ∧
      (p.base_asset_amount ≠ 0 → ∀ mkt, c2MapW p.market_index = some mkt →
        p'.last_cumulative_funding_rate =
          (if p.base_asset_amount > 0 then mkt.amm.cumulative_funding_rate_long
           else mkt.amm.cumulative_funding_rate_short)))
      c2UserW.positions c2UserW1.positions ∧
    (∀ r ∈ [c2RecW], r.base_asset_amount ≠ 0) :=
  settlement_zero_skip c2UserW 9 c2MapW 77 c2UserW1 [c2RecW]
    (by set_option maxRecDepth 8000 in decide)
